import Mathlib

/-!
Verification of the Frame Sequence Compositor & Exporter of the
SeanKD_PhotoTools repository (MakeGif.py, with the companion raw
desqueeze utility PhotoDesqueezer.py).

The embedding models the `GifCreatorApp` controller state shallowly.
Python lists are mutable heap objects; since the undo/redo machinery of
the source stores list *references* in its history tuples and restores
them by reference (`self.images = old_state`), aliasing is observable.
We therefore model the heap explicitly: `AppState.heap` is the store of
list objects, indexed by allocation order, and `imagesRef` is the
reference held by `self.images`.  `list.copy()` allocates a fresh cell;
`list.extend` / `del list[i]` mutate the cell pointed to in place.

History entries carry, besides the two references stored in the Python
tuple, two ghost fields (`beforeSnap`, `afterSnap`) recording the frame
sequence that held immediately before/after the recorded action; they do
not influence execution and are used only to state the history
invariant.

Machine integers are modelled as `Int`/`Nat`.  The float expression
`int(img.size[0] * (height / img.size[1]))` of the resize branch is
modelled in exact arithmetic as `w * H / h` (natural floor division);
the counterexamples below use inputs whose fractional part is far from
an integer boundary, where the double computation agrees with the exact
one.  Python `%` by zero raises `ZeroDivisionError`; operations that can
raise it return `Except`.
-/

namespace PhotoTools

/-- Action tag stored as the first component of an undo tuple:
`"add_images"` or `"remove_frame"`. -/
inductive ActionKind
  | addImages
  | removeFrame
deriving DecidableEq, Repr

/-- One element of `undo_stack` / `redo_stack`.  The Python tuple is
`(action_type, old_images, self.images.copy())`; `beforeRef`/`afterRef`
are the two list references it stores.  `beforeSnap`/`afterSnap` are
ghost copies of the values those references held at push time (the frame
sequence immediately before and after the recorded action). -/
structure HistEntry where
  kind : ActionKind
  beforeRef : Nat
  afterRef : Nat
  beforeSnap : List String
  afterSnap : List String
deriving DecidableEq, Repr

/-- Entries of `resolution_combo`: "Original", "1080p", "720p", "480p",
"360p". -/
inductive Resolution
  | original
  | p1080
  | p720
  | p480
  | p360
deriving DecidableEq, Repr

/-- Entries of `output_format_combo`: "GIF" or "WebP". -/
inductive OutFormat
  | gif
  | webp
deriving DecidableEq, Repr

/-- State of the `GifCreatorApp` controller.  `heap` is the store of
Python list objects (allocation-ordered); `imagesRef` is the reference
held by `self.images`.  `listSelection` models
`image_list.currentRow()` (`-1` = no selection); `preview` the path
shown by the preview widget; `timerPeriod` the interval of `play_timer`
while running.  The remaining fields mirror the export-option widgets. -/
structure AppState where
  heap : List (List String)
  imagesRef : Nat
  undoStack : List HistEntry
  redoStack : List HistEntry
  currentImageIndex : Int
  preview : Option String
  listSelection : Int
  fps : Nat
  isPlaying : Bool
  timerPeriod : Option Nat
  optimize : Bool
  qualitySlider : Nat
  loopCount : Nat
  resolution : Resolution
  outputFormat : OutFormat
deriving DecidableEq, Repr

/-- Dereference a list object; out-of-store references (which cannot
arise in the running program) read as `[]`. -/
def heapGet (h : List (List String)) (r : Nat) : List String :=
  (h[r]?).getD []

/-- Value of `self.images`. -/
def images (s : AppState) : List String :=
  heapGet s.heap s.imagesRef

/-- Source `show_image(self, index)`: guarded by
`if 0 <= index < len(self.images)`, it loads the pixmap of
`self.images[index]` into the preview, assigns
`self.current_image_index = index` and selects the row. -/
def show_image (index : Int) (s : AppState) : AppState :=
  if 0 ≤ index ∧ index < ((images s).length : Int) then
    { s with
      preview := some ((images s).getD index.toNat ""),
      currentImageIndex := index,
      listSelection := index }
  else s

/-- Source `update_image_list`: clears and repopulates the list widget;
clearing a `QListWidget` drops the current row (it becomes `-1`).  The
re-entrant `itemSelectionChanged` signal fires `on_select_image` with no
selection, which does nothing. -/
def update_image_list (s : AppState) : AppState :=
  { s with listSelection := -1 }

/-- Source `add_to_undo_stack(self, action)`: pushes the tuple and
unconditionally clears the redo stack. -/
def add_to_undo_stack (e : HistEntry) (s : AppState) : AppState :=
  { s with undoStack := e :: s.undoStack, redoStack := [] }

/-- Source `add_images(self, files)`:
`old_images = self.images.copy()` (fresh allocation),
`self.images.extend(files)` (in-place mutation of the current cell),
`update_image_list()`, `show_image(len(old_images))`, then
`add_to_undo_stack(("add_images", old_images, self.images.copy()))`
(second fresh allocation). -/
def add_images (files : List String) (s : AppState) : AppState :=
  let v := images s
  let oldRef := s.heap.length
  let s1 := { s with heap := s.heap ++ [v] }
  let s2 := { s1 with heap := s1.heap.set s1.imagesRef (v ++ files) }
  let s3 := update_image_list s2
  let s4 := show_image (v.length : Int) s3
  let newRef := s4.heap.length
  let s5 := { s4 with heap := s4.heap ++ [images s4] }
  add_to_undo_stack
    { kind := ActionKind.addImages, beforeRef := oldRef, afterRef := newRef,
      beforeSnap := v, afterSnap := images s4 } s5

/-- Source `remove_selected_frame(self)`: reads
`current_row = self.image_list.currentRow()` and proceeds only
`if current_row != -1`.  Qt reports `currentRow` as `-1` or an in-range
row, so the guard is modelled as `0 ≤ row < len(images)`; a hypothetical
out-of-range row would raise `IndexError` at `del` before any state
change, which is likewise state-preserving.  Otherwise:
`old_images = self.images.copy()`, `del self.images[current_row]`
(in place), `update_image_list()`, then
`show_image(min(current_row, len(self.images) - 1))` when frames remain
else `preview_widget.clear()`, and finally
`add_to_undo_stack(("remove_frame", old_images, self.images.copy()))`. -/
def remove_selected_frame (s : AppState) : AppState :=
  let row := s.listSelection
  if 0 ≤ row ∧ row < ((images s).length : Int) then
    let v := images s
    let oldRef := s.heap.length
    let s1 := { s with heap := s.heap ++ [v] }
    let erased := v.eraseIdx row.toNat
    let s2 := { s1 with heap := s1.heap.set s1.imagesRef erased }
    let s3 := update_image_list s2
    let s4 :=
      if erased.isEmpty then { s3 with preview := none }
      else show_image (min row ((erased.length : Int) - 1)) s3
    let newRef := s4.heap.length
    let s5 := { s4 with heap := s4.heap ++ [images s4] }
    add_to_undo_stack
      { kind := ActionKind.removeFrame, beforeRef := oldRef, afterRef := newRef,
        beforeSnap := v, afterSnap := images s4 } s5
  else s

/-- Source `undo(self)`: if the undo stack is non-empty, pop the tuple,
push it on the redo stack, restore `self.images = old_state` (by
reference — no copy), refresh the list and show frame 0. -/
def undo (s : AppState) : AppState :=
  match s.undoStack with
  | [] => s
  | e :: rest =>
    let s1 := { s with undoStack := rest, redoStack := e :: s.redoStack }
    let s2 := { s1 with imagesRef := e.beforeRef }
    show_image 0 (update_image_list s2)

/-- Source `redo(self)`: symmetric to `undo`; restores
`self.images = new_state` (again by reference). -/
def redo (s : AppState) : AppState :=
  match s.redoStack with
  | [] => s
  | e :: rest =>
    let s1 := { s with redoStack := rest, undoStack := e :: s.undoStack }
    let s2 := { s1 with imagesRef := e.afterRef }
    show_image 0 (update_image_list s2)

/-- Python error raised by `%` with a zero right operand. -/
inductive PyError
  | zeroDivision
deriving DecidableEq, Repr

/-- Source `toggle_play` timer interval: `self.play_timer.start(1000 // self.fps)`
— integer floor division. -/
def timerPeriodOf (fps : Nat) : Nat := 1000 / fps

/-- Source `toggle_play(self)`: stops the timer when playing, else
starts it with period `1000 // fps`, and flips `is_playing`. -/
def toggle_play (s : AppState) : AppState :=
  if s.isPlaying then
    { s with timerPeriod := none, isPlaying := false }
  else
    { s with timerPeriod := some (timerPeriodOf s.fps), isPlaying := true }

/-- Source `next_frame(self)`:
`self.show_image((self.current_image_index + 1) % len(self.images))`.
With an empty list, Python `% 0` raises `ZeroDivisionError`; for a
positive modulus Python `%` agrees with `Int.emod`. -/
def next_frame (s : AppState) : Except PyError AppState :=
  if (images s).length = 0 then Except.error PyError.zeroDivision
  else Except.ok (show_image ((s.currentImageIndex + 1) % ((images s).length : Int)) s)

/-- Source `prev_frame(self)`:
`self.show_image((self.current_image_index - 1) % len(self.images))`. -/
def prev_frame (s : AppState) : Except PyError AppState :=
  if (images s).length = 0 then Except.error PyError.zeroDivision
  else Except.ok (show_image ((s.currentImageIndex - 1) % ((images s).length : Int)) s)

/-- Parameters of `rawpy`'s `postprocess`; `use_camera_wb` defaults to
`False` when not passed. -/
structure RawPostprocessParams where
  use_camera_wb : Bool := false
deriving DecidableEq, Repr

/-- White balance applied during raw demosaic: either the value embedded
in the file's camera metadata, or the library default used when
`use_camera_wb` is not requested. -/
inductive WhiteBalance
  | camera (v : Nat)
  | rawpyDefault
deriving DecidableEq, Repr

/-- Content of one source file, as far as the pipeline observes it:
pixel dimensions, presence of an alpha channel, and the camera white
balance embedded in its metadata (meaningful for raw files). -/
structure SourceImage where
  width : Nat
  height : Nat
  hasAlpha : Bool
  cameraWb : Nat
deriving DecidableEq, Repr

/-- Result of a raw decode: full-size demosaiced RGB dimensions plus the
white balance that was applied. -/
structure DecodedImage where
  width : Nat
  height : Nat
  wb : WhiteBalance
deriving DecidableEq, Repr

/-- Model of `raw.postprocess(...)`: demosaic to an RGB buffer of the
sensor dimensions, applying the camera-metadata white balance exactly
when `use_camera_wb` is set, and the library default otherwise. -/
def rawPostprocess (params : RawPostprocessParams) (src : SourceImage) : DecodedImage :=
  { width := src.width, height := src.height,
    wb := if params.use_camera_wb then WhiteBalance.camera src.cameraWb
          else WhiteBalance.rawpyDefault }

/-- Parameters of the `raw.postprocess()` call in `create_gif`'s `.dng`
branch: no arguments are passed, so everything keeps its default. -/
def createGifDngParams : RawPostprocessParams := {}

/-- Decode step applied by `create_gif` to a `.dng` source. -/
def createGifDecodeDng (src : SourceImage) : DecodedImage :=
  rawPostprocess createGifDngParams src

/-- Parameters of the `raw.postprocess(use_camera_wb=True)` call in
`PhotoDesqueezer.desqueeze_image`. -/
def desqueezeParams : RawPostprocessParams := { use_camera_wb := true }

/-- Decode step applied by the companion desqueeze utility. -/
def desqueezeDecode (src : SourceImage) : DecodedImage :=
  rawPostprocess desqueezeParams src

/-- Resolution-branch width formula of `create_gif`:
`ratio = height / img.size[1]; new_width = int(img.size[0] * ratio)`,
i.e. truncation of `w * (H / h)`, modelled exactly as `w * H / h` in
natural (floor) division. -/
def createGifNewWidth (w h H : Nat) : Nat := w * H / h

/-- Height selected by the resolution combo (`int(text[:-1])`), `none`
for "Original". -/
def resHeightOf : Resolution → Option Nat
  | Resolution.original => none
  | Resolution.p1080 => some 1080
  | Resolution.p720 => some 720
  | Resolution.p480 => some 480
  | Resolution.p360 => some 360

/-- Per-frame processing record produced by `create_gif`'s loop: decode
(raw branch for paths ending in `.dng`, PIL otherwise), RGBA flattening,
the resolution resize, and whether the 800px optimize thumbnail pass was
applied. -/
structure FrameProc where
  decodedWidth : Nat
  decodedHeight : Nat
  wb : Option WhiteBalance
  alphaFlattened : Bool
  width : Nat
  height : Nat
  thumbnailApplied : Bool
deriving DecidableEq, Repr

/-- Processing of one frame inside `create_gif`'s loop, for a source
environment `env` mapping paths to file contents. -/
def processFrame (env : String → SourceImage) (s : AppState) (path : String) : FrameProc :=
  let src := env path
  let dng := (path.toLower).endsWith ".dng"
  let rdims : Nat × Nat :=
    match resHeightOf s.resolution with
    | none => (src.width, src.height)
    | some H => (createGifNewWidth src.width src.height H, H)
  { decodedWidth := src.width, decodedHeight := src.height,
    wb := if dng then some (createGifDecodeDng src).wb else none,
    alphaFlattened := src.hasAlpha,
    width := rdims.1, height := rdims.2,
    thumbnailApplied := s.optimize }

/-- Arguments of the single `imageio.mimsave` call made by `create_gif`. -/
structure EncodeCall where
  file : String
  format : OutFormat
  fps : Nat
  loop : Nat
  optimizeFlag : Option Bool
  quality : Option Nat
  frames : List FrameProc
deriving DecidableEq, Repr

/-- Outcome of a `create_gif` invocation: early return on an empty
project (warning dialog, nothing written), early return when the save
dialog is dismissed, or a single encoder call. -/
inductive ExportResult
  | emptyProject
  | noDestination
  | encoded (c : EncodeCall)
deriving DecidableEq, Repr

/-- Source `create_gif(self)`: `if not self.images:` warn and return
(before the save dialog, before any decode); otherwise ask for a
destination; if one is chosen, decode/resize every frame in order and
call `imageio.mimsave` once — for GIF with `optimize`/`quality` kwargs
only when the optimize toggle is checked, for WebP always with
`quality`.  Progress-bar updates are UI-only and not modelled; the
frame sequence and all option fields are left untouched. -/
def create_gif (env : String → SourceImage) (s : AppState)
    (outputFile : Option String) : AppState × ExportResult :=
  if (images s).isEmpty then (s, ExportResult.emptyProject)
  else
    match outputFile with
    | none => (s, ExportResult.noDestination)
    | some f =>
      let procs := (images s).map (processFrame env s)
      let call : EncodeCall :=
        if s.outputFormat = OutFormat.gif then
          { file := f, format := OutFormat.gif, fps := s.fps, loop := s.loopCount,
            optimizeFlag := if s.optimize then some true else none,
            quality := if s.optimize then some s.qualitySlider else none,
            frames := procs }
        else
          { file := f, format := OutFormat.webp, fps := s.fps, loop := s.loopCount,
            optimizeFlag := none,
            quality := some s.qualitySlider,
            frames := procs }
      (s, ExportResult.encoded call)

/-- Model of `QSlider.setValue` on `quality_slider`: the widget was
configured with `setRange(1, 100)`, and `setValue` clamps its argument
into that range. -/
def qualitySliderSetValue (v : Int) (s : AppState) : AppState :=
  { s with qualitySlider := (min 100 (max 1 v)).toNat }

/-- Quality kwarg of the encoder call, if one was made. -/
def exportQuality : ExportResult → Option Nat
  | ExportResult.encoded c => c.quality
  | _ => none

/-- Number of frames decoded/processed by the export. -/
def exportFramesProcessed : ExportResult → Nat
  | ExportResult.encoded c => c.frames.length
  | _ => 0

/-- Destination files written by the export. -/
def filesWritten : ExportResult → List String
  | ExportResult.encoded c => [c.file]
  | _ => []

/-- History-consistency check: every entry on either stack still
dereferences to the ghost sequences recorded when it was pushed. -/
def snapshotsIntactB (s : AppState) : Bool :=
  (s.undoStack ++ s.redoStack).all fun e =>
    heapGet s.heap e.beforeRef == e.beforeSnap
      && heapGet s.heap e.afterRef == e.afterSnap

/-- State of a freshly constructed `GifCreatorApp`: one empty list
object for `self.images`, empty stacks, index 0, default widget values
(fps 24, optimize checked, quality 85, loop 0, resolution "Original",
format "GIF"). -/
def initState : AppState :=
  { heap := [[]], imagesRef := 0, undoStack := [], redoStack := [],
    currentImageIndex := 0, preview := none, listSelection := -1,
    fps := 24, isPlaying := false, timerPeriod := none,
    optimize := true, qualitySlider := 85, loopCount := 0,
    resolution := Resolution.original, outputFormat := OutFormat.gif }

/-- Width the spec's words prescribe for the resize step:
`round(H × w / h)`, rounding half up (no reachable input is a tie). -/
def specRoundedWidth (w h H : Nat) : Nat := (2 * (w * H) + h) / (2 * h)

/-- Per-frame delay the spec's words prescribe: `round(1000 / fps)`
milliseconds, rounding half up (no reachable fps is a tie). -/
def specRoundedDelay (fps : Nat) : Nat := (2 * 1000 + fps) / (2 * fps)

/-- Raw source sample used as a concrete input: 4000×3000 sensor with
camera white balance value 5 in its metadata. -/
def dngSample : SourceImage :=
  { width := 4000, height := 3000, hasAlpha := false, cameraWb := 5 }

/-- Environment for concrete export runs: every path resolves to a 4×3
alpha-free still. -/
def cexEnv : String → SourceImage :=
  fun _ => { width := 4, height := 3, hasAlpha := false, cameraWb := 0 }

/-- Concrete one-frame project used as an export input. -/
def cexExportState : AppState := { initState with heap := [["a.png"]] }

/-- Heap of `add_images files s` after the in-place `extend`, before the
second copy is allocated: the freshly allocated copy of the old sequence
sits at index `s.heap.length`, and the cell of `self.images` now holds
the extended sequence. -/
def addHeapA (files : List String) (s : AppState) : List (List String) :=
  (s.heap ++ [images s]).set s.imagesRef (images s ++ files)

/-- Heap of `remove_selected_frame s` after the in-place `del`, before
the second copy is allocated. -/
def removeHeapA (s : AppState) : List (List String) :=
  (s.heap ++ [images s]).set s.imagesRef ((images s).eraseIdx s.listSelection.toNat)

/-- Concrete two-frame project (frames "a", "b", row 0 selected) used to
instantiate hypotheses at a closed input. -/
def wit1State : AppState := add_images ["a", "b"] initState

/-- Concrete trace exercising the snapshot-aliasing hazard:
`add_images(["a"])`, `undo()`, `redo()` (which sets `self.images` to the
stored after-snapshot by reference), then `add_images(["b"])` (which
mutates that same list in place via `extend`). -/
def cexTrace : AppState :=
  add_images ["b"] (redo (undo (add_images ["a"] initState)))

/-! Helper lemmas about the heap and the field footprint of each
operation. -/

lemma heapGet_concat_self (h : List (List String)) (x : List String) :
    heapGet (h ++ [x]) h.length = x := by
  simp [heapGet, List.getElem?_concat_length]

lemma heapGet_append_lt (h : List (List String)) (x : List String) {r : Nat}
    (hr : r < h.length) : heapGet (h ++ [x]) r = heapGet h r := by
  simp [heapGet, List.getElem?_append_left hr]

lemma heapGet_set_self (h : List (List String)) {r : Nat} (x : List String)
    (hr : r < h.length) : heapGet (h.set r x) r = x := by
  simp [heapGet, List.getElem?_set_eq_of_lt x hr]

lemma heapGet_set_ne (h : List (List String)) {r r' : Nat} (x : List String)
    (hne : r ≠ r') : heapGet (h.set r x) r' = heapGet h r' := by
  simp [heapGet, List.getElem?_set_ne hne]

lemma ref_lt_of_images_ne_nil {s : AppState} (h : images s ≠ []) :
    s.imagesRef < s.heap.length := by
  by_contra hc
  apply h
  unfold images heapGet
  rw [List.getElem?_eq_none (by omega)]
  rfl

lemma show_image_heap (i : Int) (s : AppState) : (show_image i s).heap = s.heap := by
  unfold show_image; split <;> rfl

lemma show_image_imagesRef (i : Int) (s : AppState) :
    (show_image i s).imagesRef = s.imagesRef := by
  unfold show_image; split <;> rfl

lemma show_image_undoStack (i : Int) (s : AppState) :
    (show_image i s).undoStack = s.undoStack := by
  unfold show_image; split <;> rfl

lemma show_image_redoStack (i : Int) (s : AppState) :
    (show_image i s).redoStack = s.redoStack := by
  unfold show_image; split <;> rfl

lemma images_show_image (i : Int) (s : AppState) :
    images (show_image i s) = images s := by
  unfold images; rw [show_image_heap, show_image_imagesRef]

lemma images_undo_of_cons {s : AppState} {e : HistEntry} {rest : List HistEntry}
    (h : s.undoStack = e :: rest) :
    images (undo s) = heapGet s.heap e.beforeRef := by
  unfold undo
  rw [h, images_show_image]
  rfl

lemma heap_undo_of_cons {s : AppState} {e : HistEntry} {rest : List HistEntry}
    (h : s.undoStack = e :: rest) : (undo s).heap = s.heap := by
  unfold undo
  rw [h, show_image_heap]
  rfl

lemma redoStack_undo_of_cons {s : AppState} {e : HistEntry} {rest : List HistEntry}
    (h : s.undoStack = e :: rest) : (undo s).redoStack = e :: s.redoStack := by
  unfold undo
  rw [h, show_image_redoStack]
  rfl

lemma images_redo_of_cons {s : AppState} {e : HistEntry} {rest : List HistEntry}
    (h : s.redoStack = e :: rest) :
    images (redo s) = heapGet s.heap e.afterRef := by
  unfold redo
  rw [h, images_show_image]
  rfl

lemma addHeapA_length (files : List String) (s : AppState) :
    (addHeapA files s).length = s.heap.length + 1 := by
  simp [addHeapA]

lemma add_images_redoStack (files : List String) (s : AppState) :
    (add_images files s).redoStack = [] := rfl

lemma add_images_imagesRef (files : List String) (s : AppState) :
    (add_images files s).imagesRef = s.imagesRef := by
  unfold add_images add_to_undo_stack
  simp only [show_image_imagesRef]
  rfl

lemma add_images_heap (files : List String) (s : AppState) :
    (add_images files s).heap
      = addHeapA files s ++ [heapGet (addHeapA files s) s.imagesRef] := by
  unfold add_images add_to_undo_stack images addHeapA
  simp only [show_image_heap, show_image_imagesRef]
  rfl

lemma add_images_undoStack (files : List String) (s : AppState) :
    (add_images files s).undoStack
      = { kind := ActionKind.addImages, beforeRef := s.heap.length,
          afterRef := s.heap.length + 1, beforeSnap := images s,
          afterSnap := heapGet (addHeapA files s) s.imagesRef }
        :: s.undoStack := by
  unfold add_images add_to_undo_stack
  simp only [show_image_heap, show_image_imagesRef, show_image_undoStack]
  simp [update_image_list, images, addHeapA, show_image_heap, show_image_imagesRef]

lemma images_undo_of_stack {s : AppState} {k : ActionKind} {br ar : Nat}
    {bs as' : List String} {rest : List HistEntry}
    (h : s.undoStack = ⟨k, br, ar, bs, as'⟩ :: rest) :
    images (undo s) = heapGet s.heap br := by
  unfold undo
  rw [h, images_show_image]
  rfl

lemma images_redo_of_stack {s : AppState} {k : ActionKind} {br ar : Nat}
    {bs as' : List String} {rest : List HistEntry}
    (h : s.redoStack = ⟨k, br, ar, bs, as'⟩ :: rest) :
    images (redo s) = heapGet s.heap ar := by
  unfold redo
  rw [h, images_show_image]
  rfl

lemma c1_addA (s : AppState) (files : List String) (hwf : s.imagesRef < s.heap.length) :
    images (undo (add_images files s)) = images s := by
  rw [images_undo_of_stack (add_images_undoStack files s), add_images_heap,
    heapGet_append_lt _ _ (by rw [addHeapA_length]; omega)]
  unfold addHeapA
  rw [heapGet_set_ne _ _ (Nat.ne_of_lt hwf), heapGet_concat_self]

lemma c1_addB (s : AppState) (files : List String) (hwf : s.imagesRef < s.heap.length) :
    images (redo (undo (add_images files s))) = images (add_images files s) := by
  have hu := add_images_undoStack files s
  have hr : (undo (add_images files s)).redoStack
      = ({ kind := ActionKind.addImages, beforeRef := s.heap.length,
           afterRef := s.heap.length + 1, beforeSnap := images s,
           afterSnap := heapGet (addHeapA files s) s.imagesRef } : HistEntry)
        :: [] := by
    rw [redoStack_undo_of_cons hu, add_images_redoStack]
  rw [images_redo_of_stack hr, heap_undo_of_cons hu, add_images_heap,
    show s.heap.length + 1 = (addHeapA files s).length from (addHeapA_length files s).symm,
    heapGet_concat_self]
  rw [show images (add_images files s)
        = heapGet (add_images files s).heap (add_images files s).imagesRef from rfl,
    add_images_heap, add_images_imagesRef,
    heapGet_append_lt _ _ (by rw [addHeapA_length]; omega)]

lemma removeHeapA_length (s : AppState) :
    (removeHeapA s).length = s.heap.length + 1 := by
  simp [removeHeapA]

lemma remove_redoStack (s : AppState)
    (hc : 0 ≤ s.listSelection ∧ s.listSelection < ((images s).length : Int)) :
    (remove_selected_frame s).redoStack = [] := by
  unfold remove_selected_frame
  rw [if_pos hc]
  rfl

lemma remove_imagesRef (s : AppState)
    (hc : 0 ≤ s.listSelection ∧ s.listSelection < ((images s).length : Int)) :
    (remove_selected_frame s).imagesRef = s.imagesRef := by
  unfold remove_selected_frame
  rw [if_pos hc]
  simp only [add_to_undo_stack]
  simp [apply_ite AppState.imagesRef, show_image_imagesRef, update_image_list]

lemma remove_heap (s : AppState)
    (hc : 0 ≤ s.listSelection ∧ s.listSelection < ((images s).length : Int)) :
    (remove_selected_frame s).heap
      = removeHeapA s ++ [heapGet (removeHeapA s) s.imagesRef] := by
  unfold remove_selected_frame
  rw [if_pos hc]
  simp only [add_to_undo_stack]
  simp [apply_ite AppState.heap, apply_ite AppState.imagesRef, show_image_heap,
    show_image_imagesRef, update_image_list, images, removeHeapA]

lemma remove_undoStack (s : AppState)
    (hc : 0 ≤ s.listSelection ∧ s.listSelection < ((images s).length : Int)) :
    (remove_selected_frame s).undoStack
      = { kind := ActionKind.removeFrame, beforeRef := s.heap.length,
          afterRef := s.heap.length + 1, beforeSnap := images s,
          afterSnap := heapGet (removeHeapA s) s.imagesRef }
        :: s.undoStack := by
  unfold remove_selected_frame
  rw [if_pos hc]
  simp only [add_to_undo_stack]
  simp [apply_ite AppState.heap, apply_ite AppState.imagesRef, apply_ite AppState.undoStack,
    show_image_heap, show_image_imagesRef, show_image_undoStack, update_image_list,
    images, removeHeapA]

lemma ref_lt_of_sel {s : AppState}
    (hc : 0 ≤ s.listSelection ∧ s.listSelection < ((images s).length : Int)) :
    s.imagesRef < s.heap.length := by
  have hlen : 0 < (images s).length := by omega
  exact ref_lt_of_images_ne_nil (List.ne_nil_of_length_pos hlen)

lemma images_remove (s : AppState)
    (hc : 0 ≤ s.listSelection ∧ s.listSelection < ((images s).length : Int)) :
    images (remove_selected_frame s) = (images s).eraseIdx s.listSelection.toNat := by
  have hwf := ref_lt_of_sel hc
  rw [show images (remove_selected_frame s)
        = heapGet (remove_selected_frame s).heap (remove_selected_frame s).imagesRef from rfl,
    remove_heap s hc, remove_imagesRef s hc,
    heapGet_append_lt _ _ (by rw [removeHeapA_length]; omega)]
  unfold removeHeapA
  rw [heapGet_set_self _ _ (by simp; omega)]

lemma c1_remA (s : AppState)
    (hc : 0 ≤ s.listSelection ∧ s.listSelection < ((images s).length : Int)) :
    images (undo (remove_selected_frame s)) = images s := by
  have hwf := ref_lt_of_sel hc
  rw [images_undo_of_stack (remove_undoStack s hc), remove_heap s hc,
    heapGet_append_lt _ _ (by rw [removeHeapA_length]; omega)]
  unfold removeHeapA
  rw [heapGet_set_ne _ _ (Nat.ne_of_lt hwf), heapGet_concat_self]

lemma c1_remB (s : AppState)
    (hc : 0 ≤ s.listSelection ∧ s.listSelection < ((images s).length : Int)) :
    images (redo (undo (remove_selected_frame s)))
      = images (remove_selected_frame s) := by
  have hwf := ref_lt_of_sel hc
  have hu := remove_undoStack s hc
  have hr : (undo (remove_selected_frame s)).redoStack
      = ({ kind := ActionKind.removeFrame, beforeRef := s.heap.length,
           afterRef := s.heap.length + 1, beforeSnap := images s,
           afterSnap := heapGet (removeHeapA s) s.imagesRef } : HistEntry)
        :: [] := by
    rw [redoStack_undo_of_cons hu, remove_redoStack s hc]
  rw [images_redo_of_stack hr, heap_undo_of_cons hu, remove_heap s hc,
    show s.heap.length + 1 = (removeHeapA s).length from (removeHeapA_length s).symm,
    heapGet_concat_self]
  rw [show images (remove_selected_frame s)
        = heapGet (remove_selected_frame s).heap (remove_selected_frame s).imagesRef from rfl,
    remove_heap s hc, remove_imagesRef s hc,
    heapGet_append_lt _ _ (by rw [removeHeapA_length]; omega)]

/-- C1: for every project state (with `self.images` a live heap cell,
true of every reachable state) and every single mutation, `undo()`
restores the frame sequence that held immediately before the mutation,
and `undo()` then `redo()` yields exactly the post-mutation frame
sequence: unconditionally for `add_images` (any file list, any
selection state, including the fresh empty app), and for
`remove_selected_frame` whenever a valid selection makes it an actual
mutation. -/
theorem c1_undo_redo_invert_mutation (s : AppState) (files : List String)
    (hwf : s.imagesRef < s.heap.length) :
    images (undo (add_images files s)) = images s
  ∧ images (redo (undo (add_images files s))) = images (add_images files s)
  ∧ (0 ≤ s.listSelection → s.listSelection < ((images s).length : Int) →
      images (undo (remove_selected_frame s)) = images s
    ∧ images (redo (undo (remove_selected_frame s))) = images (remove_selected_frame s)) :=
  ⟨c1_addA s files hwf, c1_addB s files hwf,
   fun hsel hlt => ⟨c1_remA s ⟨hsel, hlt⟩, c1_remB s ⟨hsel, hlt⟩⟩⟩

/-- C1 witness: the add round-trip at the fresh empty app (no
selection), and the remove round-trip at a concrete two-frame project
with row 0 selected. -/
theorem c1_undo_redo_invert_mutation_witness :
    (images (undo (add_images ["a"] initState)) = images initState
  ∧ images (redo (undo (add_images ["a"] initState))) = images (add_images ["a"] initState))
  ∧ (images (undo (remove_selected_frame wit1State)) = images wit1State
  ∧ images (redo (undo (remove_selected_frame wit1State)))
      = images (remove_selected_frame wit1State)) :=
  ⟨⟨(c1_undo_redo_invert_mutation initState ["a"] (by decide)).1,
    (c1_undo_redo_invert_mutation initState ["a"] (by decide)).2.1⟩,
   (c1_undo_redo_invert_mutation wit1State ["c"] (by decide)).2.2 (by decide) (by decide)⟩

/-- C2: the claim that stack snapshots are never mutated after recording
fails on the code.  On the reachable trace `add ["a"]; undo; redo;
add ["b"]`, `redo` restores the stored after-snapshot by reference and
the subsequent `add_images` extends that same list in place: the first
entry's after-snapshot reference then dereferences to `["a", "b"]`
although the sequence immediately after its recorded action was
`["a"]`. -/
theorem c2_snapshot_corrupted_by_redo_then_add :
    snapshotsIntactB cexTrace = false
  ∧ (cexTrace.undoStack.map fun e => (heapGet cexTrace.heap e.afterRef, e.afterSnap))
      = [(["a", "b"], ["a", "b"]), (["a", "b"], ["a"])] := by
  decide

/-- C3: the claim that `next_frame`, `prev_frame` and `play` are no-ops
on an empty project fails on the code: with `len(self.images) = 0`,
`next_frame`/`prev_frame` evaluate `(index ± 1) % 0` and raise
`ZeroDivisionError`, and `toggle_play` flips `is_playing` and starts the
timer (whose every tick then raises) rather than leaving the state
unchanged. -/
theorem c3_empty_playback_crashes :
    next_frame initState = Except.error PyError.zeroDivision
  ∧ prev_frame initState = Except.error PyError.zeroDivision
  ∧ toggle_play initState ≠ initState
  ∧ (toggle_play initState).isPlaying = true := by
  refine ⟨rfl, rfl, by decide, rfl⟩

/-- C4 counterexample: the resize step truncates instead of rounding.
For a 999×1000 source at target height 360 the code computes width
`int(999 * (360 / 1000)) = 359`, while `round(360 × 999 / 1000) = 360`. -/
theorem c4_width_not_rounded :
    createGifNewWidth 999 1000 360 ≠ specRoundedWidth 999 1000 360
  ∧ createGifNewWidth 999 1000 360 = 359
  ∧ specRoundedWidth 999 1000 360 = 360 := by
  decide

/-- C4 amended: for every source with positive height and every target
height, the resize step produces output width `⌊H × w / h⌋`
(truncation), which is within one pixel of the exact aspect-preserving
width: `width · h ≤ w · H < (width + 1) · h`. -/
theorem c4_width_is_floor (w h H : Nat) (hh : 0 < h) :
    createGifNewWidth w h H * h ≤ w * H
  ∧ w * H < (createGifNewWidth w h H + 1) * h := by
  unfold createGifNewWidth
  refine ⟨Nat.div_mul_le_self _ _, ?_⟩
  have h1 := Nat.div_add_mod (w * H) h
  have h2 := Nat.mod_lt (w * H) hh
  calc w * H = h * (w * H / h) + w * H % h := h1.symm
    _ < h * (w * H / h) + h := Nat.add_lt_add_left h2 _
    _ = (w * H / h + 1) * h := by ring

/-- C4 witness: the floor bound at the concrete input 999×1000, H=360. -/
theorem c4_width_is_floor_witness :
    createGifNewWidth 999 1000 360 * 1000 ≤ 999 * 360
  ∧ 999 * 360 < (createGifNewWidth 999 1000 360 + 1) * 1000 :=
  c4_width_is_floor 999 1000 360 (by decide)

/-- C5 counterexample: the playback timer period is `1000 // fps`
(floor), not `round(1000 / fps)`: at the default fps = 24 the timer is
started with 41 ms, while the claim prescribes 42 ms. -/
theorem c5_timer_not_rounded :
    (toggle_play initState).timerPeriod ≠ some (specRoundedDelay initState.fps)
  ∧ (toggle_play initState).timerPeriod = some 41
  ∧ specRoundedDelay 24 = 42 := by
  decide

/-- C5 amended: starting playback from a stopped state schedules the
timer with period `⌊1000 / fps⌋` ms; fps = 24 → 41 ms, fps = 30 → 33 ms,
fps = 60 → 16 ms. -/
theorem c5_timer_is_floor_div (s : AppState) (h : s.isPlaying = false) :
    (toggle_play s).timerPeriod = some (timerPeriodOf s.fps)
  ∧ (toggle_play s).isPlaying = true
  ∧ timerPeriodOf 24 = 41 ∧ timerPeriodOf 30 = 33 ∧ timerPeriodOf 60 = 16 := by
  refine ⟨by simp [toggle_play, h], by simp [toggle_play, h], by decide, by decide, by decide⟩

/-- C5 witness: the amended statement at the freshly constructed app. -/
theorem c5_timer_is_floor_div_witness :
    (toggle_play initState).timerPeriod = some (timerPeriodOf initState.fps)
  ∧ (toggle_play initState).isPlaying = true
  ∧ timerPeriodOf 24 = 41 ∧ timerPeriodOf 30 = 33 ∧ timerPeriodOf 60 = 16 :=
  c5_timer_is_floor_div initState rfl

/-- C6: removing the selected frame at an in-range row `i` yields
exactly the original sequence with position `i` deleted (prefix
unchanged, suffix shifted down by one); a removal request with no valid
selection changes nothing. -/
theorem c6_remove_exact_deletion (s : AppState) :
    (0 ≤ s.listSelection → s.listSelection < ((images s).length : Int) →
      images (remove_selected_frame s)
        = (images s).take s.listSelection.toNat
          ++ (images s).drop (s.listSelection.toNat + 1))
  ∧ (s.listSelection = -1 → remove_selected_frame s = s) := by
  constructor
  · intro h0 h1
    rw [images_remove s ⟨h0, h1⟩]
    exact List.eraseIdx_eq_take_drop_succ _ _
  · intro h
    unfold remove_selected_frame
    rw [if_neg (by rw [h]; omega)]

/-- C6 witness: deletion at row 0 of a concrete two-frame project, and
the no-selection no-op at the fresh app. -/
theorem c6_remove_exact_deletion_witness :
    (images (remove_selected_frame wit1State)
      = (images wit1State).take wit1State.listSelection.toNat
        ++ (images wit1State).drop (wit1State.listSelection.toNat + 1))
  ∧ remove_selected_frame initState = initState :=
  ⟨(c6_remove_exact_deletion wit1State).1 (by decide) (by decide),
   (c6_remove_exact_deletion initState).2 rfl⟩

/-- C7: exporting a project with zero frames returns with the
empty-project error before the save dialog and before any decode or
encode work: no destination file is created, no frame is processed, and
the state is returned unchanged. -/
theorem c7_empty_export_rejected (env : String → SourceImage) (s : AppState)
    (out : Option String) (h : images s = []) :
    create_gif env s out = (s, ExportResult.emptyProject)
  ∧ filesWritten (create_gif env s out).2 = []
  ∧ exportFramesProcessed (create_gif env s out).2 = 0 := by
  have h1 : create_gif env s out = (s, ExportResult.emptyProject) := by
    unfold create_gif
    rw [if_pos (by simp [h])]
  refine ⟨h1, by rw [h1]; rfl, by rw [h1]; rfl⟩

/-- C7 witness: export of the freshly constructed (empty) app. -/
theorem c7_empty_export_rejected_witness :
    create_gif cexEnv initState (some "out.gif") = (initState, ExportResult.emptyProject)
  ∧ filesWritten (create_gif cexEnv initState (some "out.gif")).2 = []
  ∧ exportFramesProcessed (create_gif cexEnv initState (some "out.gif")).2 = 0 :=
  c7_empty_export_rejected cexEnv initState (some "out.gif") rfl

/-- C8 counterexample: the claim that the export decode of a `.dng`
source applies the white balance embedded in the file's metadata fails
on the code: `create_gif` calls `raw.postprocess()` with no arguments,
so `use_camera_wb` keeps its default `False` and the camera white
balance of the sample file is not applied. -/
theorem c8_export_raw_wb_not_camera :
    (createGifDecodeDng dngSample).wb ≠ WhiteBalance.camera dngSample.cameraWb
  ∧ (createGifDecodeDng dngSample).wb = WhiteBalance.rawpyDefault := by
  decide

/-- C8 amended: for every raw source, `create_gif`'s decode applies
demosaic with the library-default white balance (`use_camera_wb` is not
passed and defaults to `False`); it is the companion desqueeze utility
that passes `use_camera_wb=True` and uses the embedded camera value.
Neither call takes a user-tunable parameter, so each decode is a
function of the file alone. -/
theorem c8_export_raw_uses_default_wb (src : SourceImage) :
    (createGifDecodeDng src).wb = WhiteBalance.rawpyDefault
  ∧ createGifDngParams.use_camera_wb = false
  ∧ (desqueezeDecode src).wb = WhiteBalance.camera src.cameraWb :=
  ⟨rfl, rfl, rfl⟩

/-- C9 counterexample: the claim that an export attempt with an
out-of-range quality is rejected before any decode or encode work fails
on the code: setting the slider to 150 clamps to 100, and the export of
a one-frame project proceeds — a frame is processed and the encoder is
called (with quality 100). -/
theorem c9_out_of_range_quality_still_exported :
    ((150 : Int) < 1 ∨ (100 : Int) < 150)
  ∧ exportFramesProcessed
      (create_gif cexEnv (qualitySliderSetValue 150 cexExportState) (some "out.gif")).2 = 1
  ∧ exportQuality
      (create_gif cexEnv (qualitySliderSetValue 150 cexExportState) (some "out.gif")).2
      = some 100 := by
  refine ⟨by decide, by decide, by decide⟩

/-- C9 amended: out-of-range quality values cannot reach the encoder:
whatever value is set, the slider clamps it into [1, 100], so every
encoder call made by an export after setting the quality uses a quality
in [1, 100]; the export itself is not rejected. -/
theorem c9_encoder_quality_clamped (v : Int) (env : String → SourceImage)
    (s : AppState) (out : Option String) (q : Nat)
    (h : exportQuality (create_gif env (qualitySliderSetValue v s) out).2 = some q) :
    1 ≤ q ∧ q ≤ 100 := by
  have hq : q = (min 100 (max 1 v)).toNat := by
    unfold create_gif at h
    split at h
    · simp [exportQuality] at h
    · split at h
      · simp [exportQuality] at h
      · split at h
        · simp [exportQuality, qualitySliderSetValue] at h
          exact h.2.symm
        · simp [exportQuality, qualitySliderSetValue] at h
          exact h.symm
  subst hq
  omega

/-- C9 amended witness: the clamp bound at the concrete export with the
slider set to 150. -/
theorem c9_encoder_quality_clamped_witness :
    1 ≤ (100 : Nat) ∧ (100 : Nat) ≤ 100 :=
  c9_encoder_quality_clamped 150 cexEnv cexExportState (some "out.gif") 100 (by decide)

/-- C10: `show_image(index)` with `index` outside `[0, N)` (including
every index when the frame list is empty) leaves the whole state
unchanged — preview, `current_image_index` and list selection included —
and whenever it does assign `current_image_index`, the assigned value is
in range at the moment of assignment. -/
theorem c10_show_image_guard (s : AppState) (index : Int) :
    (¬ (0 ≤ index ∧ index < ((images s).length : Int)) → show_image index s = s)
  ∧ (show_image index s = s
      ∨ (0 ≤ index ∧ index < ((images s).length : Int)
          ∧ (show_image index s).currentImageIndex = index)) := by
  constructor
  · intro h
    unfold show_image
    rw [if_neg h]
  · by_cases h : 0 ≤ index ∧ index < ((images s).length : Int)
    · exact Or.inr ⟨h.1, h.2, by unfold show_image; rw [if_pos h]⟩
    · exact Or.inl (by unfold show_image; rw [if_neg h])

/-- C10 witness: `show_image 3` on the (empty) fresh app is a no-op. -/
theorem c10_show_image_guard_witness :
    show_image 3 initState = initState :=
  (c10_show_image_guard initState 3).1 (by decide)

end PhotoTools
